import Mathlib

/-!
Verification development for the FLUX CLI image-generation client
(`src/cli/fluxcli.py`).  The pure decision logic of the Python source is
shallowly embedded below: HTTP answers become explicit data, the polling
loop becomes fuel-based structural recursion (the fuel is the remaining
attempt budget `max_attempts - attempt`), Python dicts become association
lists with `update` semantics, Python float arithmetic in the image-to-image
rescaling is modelled as exact real arithmetic (with `int(...)` truncation
of the non-negative quantities involved rendered as `Nat.floor`), and PIL
drawing calls are modelled as their ideal filled regions (boundary
included).  External effects (HTTP, files, PIL codecs) appear as explicit
parameters or oracles.
-/

/-- One JSON answer of `GET /v1/get_result`, as read by `get_task_result`:
the `status` string, the optional `error` message and the optional
`result.sample` URL. -/
structure ApiResult where
  status : String
  error : Option String
  sample : Option String
deriving DecidableEq

/-- Outcome of the polling loop in `FluxAPI.get_task_result`:
`ready r` models `return result` on status `Ready` (the full payload),
`failed msg` models the `Task failed: msg` report followed by `return None`
on status `failed` (with `msg = result.get('error', 'Unknown error')`), and
`timeout` models falling out of the `while` loop. -/
inductive PollOutcome where
  | ready (r : ApiResult)
  | failed (msg : String)
  | timeout
deriving DecidableEq

/-- The `while attempt < max_attempts` loop of `FluxAPI.get_task_result`.
`provider n` is the provider's answer to the `n`-th status query; the fuel
argument is `max_attempts - attempt`.  The second component counts the
status queries (`requests.get`) actually performed. -/
def pollLoop (provider : Nat → ApiResult) (attempt : Nat) : Nat → PollOutcome × Nat
  | 0 => (PollOutcome.timeout, 0)
  | fuel + 1 =>
    if (provider attempt).status = "Ready" then
      (PollOutcome.ready (provider attempt), 1)
    else if (provider attempt).status = "failed" then
      (PollOutcome.failed ((provider attempt).error.getD "Unknown error"), 1)
    else
      ((pollLoop provider (attempt + 1) fuel).1, (pollLoop provider (attempt + 1) fuel).2 + 1)

/-- `FluxAPI.get_task_result`: `max_attempts = 30`, `attempt = 0`. -/
def get_task_result (provider : Nat → ApiResult) : PollOutcome × Nat :=
  pollLoop provider 0 30

/-- Unfolding the loop once on a non-terminal answer. -/
lemma pollLoop_step (provider : Nat → ApiResult) (attempt fuel : Nat)
    (h1 : (provider attempt).status ≠ "Ready")
    (h2 : (provider attempt).status ≠ "failed") :
    pollLoop provider attempt (fuel + 1) =
      ((pollLoop provider (attempt + 1) fuel).1,
       (pollLoop provider (attempt + 1) fuel).2 + 1) := by
  simp [pollLoop, h1, h2]

/-- The loop never performs more queries than it has fuel. -/
lemma pollLoop_count_le (provider : Nat → ApiResult) :
    ∀ fuel attempt, (pollLoop provider attempt fuel).2 ≤ fuel := by
  intro fuel
  induction fuel with
  | zero => intro attempt; simp [pollLoop]
  | succ n ih =>
    intro attempt
    by_cases h1 : (provider attempt).status = "Ready"
    · simp [pollLoop, h1]
    · by_cases h2 : (provider attempt).status = "failed"
      · simp [pollLoop, h1, h2]
      · rw [pollLoop_step provider attempt n h1 h2]
        exact Nat.succ_le_succ (ih (attempt + 1))

/-- If every answer within the fuel budget is non-terminal, the loop
exhausts all its fuel and times out. -/
lemma pollLoop_all_nonterminal (provider : Nat → ApiResult) :
    ∀ fuel attempt,
      (∀ i, i < fuel → (provider (attempt + i)).status ≠ "Ready" ∧
        (provider (attempt + i)).status ≠ "failed") →
      pollLoop provider attempt fuel = (PollOutcome.timeout, fuel) := by
  intro fuel
  induction fuel with
  | zero => intro attempt _; simp [pollLoop]
  | succ n ih =>
    intro attempt h
    have h0 := h 0 (Nat.succ_pos n)
    rw [Nat.add_zero] at h0
    rw [pollLoop_step provider attempt n h0.1 h0.2]
    have hrec : pollLoop provider (attempt + 1) n = (PollOutcome.timeout, n) := by
      apply ih
      intro i hi
      have heq : attempt + 1 + i = attempt + (i + 1) := by omega
      rw [heq]
      exact h (i + 1) (Nat.succ_lt_succ hi)
    rw [hrec]

/-- If the first `N` answers (at attempts `a, a+1, …, a+N-1`) are
non-terminal and the answer at attempt `a+N` is terminal, with `N` within
the fuel, the loop stops at the terminal answer having made `N+1`
queries. -/
lemma pollLoop_first_terminal (provider : Nat → ApiResult) :
    ∀ (N fuel attempt : Nat), N < fuel →
      (∀ i, i < N → (provider (attempt + i)).status ≠ "Ready" ∧
        (provider (attempt + i)).status ≠ "failed") →
      ((provider (attempt + N)).status = "Ready" ∨
        (provider (attempt + N)).status = "failed") →
      pollLoop provider attempt fuel =
        (if (provider (attempt + N)).status = "Ready" then
          PollOutcome.ready (provider (attempt + N))
        else
          PollOutcome.failed ((provider (attempt + N)).error.getD "Unknown error"),
        N + 1) := by
  intro N
  induction N with
  | zero =>
    intro fuel attempt hfuel _ hterm
    obtain ⟨m, rfl⟩ := Nat.exists_eq_add_of_lt hfuel
    rw [Nat.add_zero] at hterm ⊢
    rcases hterm with hR | hF
    · simp [pollLoop, hR]
    · by_cases hR : (provider attempt).status = "Ready"
      · simp [pollLoop, hR]
      · simp [pollLoop, hR, hF]
  | succ n ih =>
    intro fuel attempt hfuel hpre hterm
    obtain ⟨m, rfl⟩ := Nat.exists_eq_add_of_lt hfuel
    have h0 := hpre 0 (Nat.succ_pos n)
    rw [Nat.add_zero] at h0
    rw [pollLoop_step provider attempt (n + 1 + m) h0.1 h0.2]
    have hshift : attempt + 1 + n = attempt + (n + 1) := by omega
    have hrec := ih (n + 1 + m) (attempt + 1) (by omega)
      (fun i hi => by
        have := hpre (i + 1) (Nat.succ_lt_succ hi)
        rwa [show attempt + 1 + i = attempt + (i + 1) by omega])
      (by rwa [hshift])
    rw [hrec, hshift]

/-- C1: if the provider answers a non-terminal status (`Queued` or
`Processing`) for the first `N` queries, `N < 30`, and a terminal status at
query `N`, then `get_task_result` performs exactly `N+1` status queries and
returns at the first terminal answer: the full result payload on `Ready`,
and the failure carrying the provider-supplied error message on `failed`,
with no further query in either case. -/
theorem poll_first_terminal_spec (provider : Nat → ApiResult) (N : Nat)
    (hN : N < 30)
    (hpre : ∀ i, i < N → (provider i).status = "Queued" ∨
      (provider i).status = "Processing") :
    ((provider N).status = "Ready" →
      get_task_result provider = (PollOutcome.ready (provider N), N + 1))
    ∧ (∀ msg, (provider N).status = "failed" → (provider N).error = some msg →
      get_task_result provider = (PollOutcome.failed msg, N + 1)) := by
  have hpre' : ∀ i, i < N → (provider (0 + i)).status ≠ "Ready" ∧
      (provider (0 + i)).status ≠ "failed" := by
    intro i hi
    rw [Nat.zero_add]
    rcases hpre i hi with h | h <;> rw [h] <;> exact ⟨by decide, by decide⟩
  constructor
  · intro hR
    have := pollLoop_first_terminal provider N 30 0 hN hpre' (by rw [Nat.zero_add]; exact Or.inl hR)
    rw [Nat.zero_add] at this
    rw [get_task_result, this, if_pos hR]
  · intro msg hF herr
    have hnR : (provider N).status ≠ "Ready" := by rw [hF]; decide
    have := pollLoop_first_terminal provider N 30 0 hN hpre' (by rw [Nat.zero_add]; exact Or.inr hF)
    rw [Nat.zero_add] at this
    rw [get_task_result, this, if_neg hnR, herr]
    rfl

/-- Witness for C1: one `Processing` answer, then `Ready`: two queries,
ready with the full payload. -/
theorem poll_first_terminal_spec_witness :
    get_task_result (fun i => if i = 0 then ⟨"Processing", none, none⟩
      else ⟨"Ready", none, some "https://img/sample"⟩) =
      (PollOutcome.ready ⟨"Ready", none, some "https://img/sample"⟩, 2) :=
  (poll_first_terminal_spec
    (fun i => if i = 0 then ⟨"Processing", none, none⟩
      else ⟨"Ready", none, some "https://img/sample"⟩) 1
    (by decide)
    (fun i hi => by
      have : i = 0 := by omega
      subst this
      exact Or.inr rfl)).1 rfl

/-- C2: for every provider behaviour the poller terminates, performing at
most 30 status queries; and if none of the first 30 answers is terminal
(`Queued`/`Processing` throughout), it performs exactly 30 queries and
reports a timeout — which is a distinct outcome from a provider-reported
failure. -/
theorem poll_bounded_timeout (provider : Nat → ApiResult) :
    (get_task_result provider).2 ≤ 30
    ∧ ((∀ i, i < 30 → (provider i).status = "Queued" ∨
        (provider i).status = "Processing") →
      get_task_result provider = (PollOutcome.timeout, 30)
        ∧ ∀ msg, PollOutcome.timeout ≠ PollOutcome.failed msg) := by
  constructor
  · exact pollLoop_count_le provider 30 0
  · intro h
    refine ⟨?_, fun msg => by simp⟩
    apply pollLoop_all_nonterminal
    intro i hi
    rw [Nat.zero_add]
    rcases h i hi with h' | h' <;> rw [h'] <;> exact ⟨by decide, by decide⟩

/-- Witness for C2: a provider stuck on `Processing` forever: at most 30
queries, and exactly 30 with a timeout. -/
theorem poll_bounded_timeout_witness :
    (get_task_result (fun _ => ⟨"Processing", none, none⟩)).2 ≤ 30
    ∧ get_task_result (fun _ => ⟨"Processing", none, none⟩) =
        (PollOutcome.timeout, 30) :=
  ⟨(poll_bounded_timeout (fun _ => ⟨"Processing", none, none⟩)).1,
   ((poll_bounded_timeout (fun _ => ⟨"Processing", none, none⟩)).2
     (fun _ _ => Or.inr rfl)).1⟩

/-- C10: terminal-status matching in the poll loop is exact and
case-sensitive.  Any constant status other than the literal `Ready` and
lowercase `failed` — in particular the capitalized `Failed` — is treated as
non-terminal and re-polled until the 30-attempt budget is exhausted, after
which a timeout (not a job failure) is reported; while literal `Ready` and
`failed` terminate on the very first query. -/
theorem poll_terminal_literal (s m : String) (e sm : Option String)
    (h1 : s ≠ "Ready") (h2 : s ≠ "failed") :
    get_task_result (fun _ => ⟨s, e, sm⟩) = (PollOutcome.timeout, 30)
    ∧ get_task_result (fun _ => ⟨"Ready", e, sm⟩) =
        (PollOutcome.ready ⟨"Ready", e, sm⟩, 1)
    ∧ get_task_result (fun _ => ⟨"failed", some m, sm⟩) =
        (PollOutcome.failed m, 1) := by
  refine ⟨?_, by simp [get_task_result, pollLoop], by simp [get_task_result, pollLoop]⟩
  apply pollLoop_all_nonterminal
  intro _i _
  exact ⟨h1, h2⟩

/-- Witness for C10: the capitalized status `Failed` (as the spec's data
model spells it) is not recognized as terminal: 30 queries, then timeout. -/
theorem poll_terminal_literal_witness :
    get_task_result (fun _ => ⟨"Failed", some "boom", none⟩) =
      (PollOutcome.timeout, 30)
    ∧ get_task_result (fun _ => ⟨"failed", some "boom", none⟩) =
      (PollOutcome.failed "boom", 1) := by
  have h := poll_terminal_literal "Failed" "boom" (some "boom") none
    (by decide) (by decide)
  exact ⟨h.1, h.2.2⟩

/-- Python truthiness of an optional string (`if aspect_ratio:`): `None`
and the empty string are falsy. -/
def truthyStr : Option String → Bool
  | none => false
  | some s => s ≠ ""

/-- Python `x or d` on an optional int (`width = width or 1024`): `None`
and `0` are falsy and are replaced by the default. -/
def pyOrInt : Option Int → Int → Option Int
  | none, d => some d
  | some v, d => if v = 0 then some d else some v

/-- The model-name → endpoint lookup table shared by `generate_image` and
`img2img` (`{...}.get(model)`). -/
def modelEndpoint : String → Option String
  | "flux.1.1-pro" => some "/v1/flux-pro-1.1"
  | "flux.1-pro" => some "/v1/flux-pro"
  | "flux.1-dev" => some "/v1/flux-dev"
  | "flux.1.1-ultra" => some "/v1/flux-pro-1.1-ultra"
  | _ => none

/-- The width/height selection of `FluxAPI.generate_image`: the
`if aspect_ratio: ... elif ... else:` chain followed by the
`width or 1024` / `height or 768` defaults. -/
def generateImageDims (width height : Option Int) (aspect : Option String) :
    Option Int × Option Int :=
  if truthyStr aspect then
    if aspect = some "1:1" then (some 1024, some 1024)
    else if aspect = some "4:3" then (some 1024, some 768)
    else if aspect = some "3:4" then (some 768, some 1024)
    else if aspect = some "16:9" then (some 1024, some 576)
    else if aspect = some "9:16" then (some 576, some 1024)
    else (width, height)
  else
    (pyOrInt width 1024, pyOrInt height 768)

/-- The JSON payload `generate_image` posts to the generation endpoint
(field `aspect` is the payload's `aspect_ratio` entry). -/
structure TTIPayload where
  prompt : String
  width : Option Int
  height : Option Int
  aspect : Option String
deriving DecidableEq

/-- First externally visible action of an operation: either it raises
(`ValueError`) before any network traffic, or its first network call is
the `requests.post` submitting `payload` to `endpoint`.  Polling and
download can only follow a `submit`. -/
inductive PreflightStep (α : Type) where
  | error (msg : String)
  | submit (endpoint : String) (payload : α)
deriving DecidableEq

/-- `FluxAPI.generate_image` up to its submission `requests.post`: the
endpoint lookup (raising `Unknown model` on a miss), the dimension
selection, and the payload construction. -/
def generate_image (prompt model : String) (width height : Option Int)
    (aspect : Option String) : PreflightStep TTIPayload :=
  match modelEndpoint model with
  | none => PreflightStep.error ("Unknown model: " ++ model)
  | some endpoint =>
    PreflightStep.submit endpoint
      { prompt := prompt
        width := (generateImageDims width height aspect).1
        height := (generateImageDims width height aspect).2
        aspect := if truthyStr aspect then aspect else none }

/-- C3: for every TextToImage request against a known model, each of the
five aspect-ratio table keys forces the payload's width and height to
exactly the table entry, regardless of any explicitly supplied
width/height; and a request with no aspect ratio and no explicit
dimensions gets the 1024×768 default. -/
theorem tti_aspect_table (prompt model endpoint : String)
    (hm : modelEndpoint model = some endpoint) (width height : Option Int) :
    generate_image prompt model width height (some "1:1") =
      PreflightStep.submit endpoint ⟨prompt, some 1024, some 1024, some "1:1"⟩
    ∧ generate_image prompt model width height (some "4:3") =
      PreflightStep.submit endpoint ⟨prompt, some 1024, some 768, some "4:3"⟩
    ∧ generate_image prompt model width height (some "3:4") =
      PreflightStep.submit endpoint ⟨prompt, some 768, some 1024, some "3:4"⟩
    ∧ generate_image prompt model width height (some "16:9") =
      PreflightStep.submit endpoint ⟨prompt, some 1024, some 576, some "16:9"⟩
    ∧ generate_image prompt model width height (some "9:16") =
      PreflightStep.submit endpoint ⟨prompt, some 576, some 1024, some "9:16"⟩
    ∧ generate_image prompt model none none none =
      PreflightStep.submit endpoint ⟨prompt, some 1024, some 768, none⟩ := by
  refine ⟨?_, ?_, ?_, ?_, ?_, ?_⟩ <;>
    simp [generate_image, hm, generateImageDims, truthyStr, pyOrInt]

/-- Witness for C3: explicit 111×222 is overridden by `16:9`, and the
bare request defaults to 1024×768. -/
theorem tti_aspect_table_witness :
    generate_image "a red fox" "flux.1.1-pro" (some 111) (some 222) (some "16:9") =
      PreflightStep.submit "/v1/flux-pro-1.1"
        ⟨"a red fox", some 1024, some 576, some "16:9"⟩
    ∧ generate_image "a red fox" "flux.1.1-pro" none none none =
      PreflightStep.submit "/v1/flux-pro-1.1"
        ⟨"a red fox", some 1024, some 768, none⟩ :=
  ⟨(tti_aspect_table "a red fox" "flux.1.1-pro" "/v1/flux-pro-1.1" rfl
      (some 111) (some 222)).2.2.2.1,
   (tti_aspect_table "a red fox" "flux.1.1-pro" "/v1/flux-pro-1.1" rfl
      (some 111) (some 222)).2.2.2.2.2⟩

/-- The `width, height = orig_width, orig_height` defaulting in
`FluxAPI.img2img`: if either requested dimension is `None`, both fall back
to the source image's native dimensions. -/
def img2imgEffDims (origW origH : Nat) (width height : Option Nat) : Nat × Nat :=
  match width, height with
  | some w, some h => (w, h)
  | _, _ => (origW, origH)

/-- The pixel-ceiling rescale of `FluxAPI.img2img`.  The Python float
expressions `int((max_area / aspect_ratio) ** 0.5)` and
`int(width * aspect_ratio)` (with `aspect_ratio = orig_height/orig_width`)
are modelled as exact real arithmetic: both quantities are non-negative, so
`int(...)` truncation is the floor, `⌊√(1048576·W/H)⌋ = Nat.sqrt (1048576*W/H)`
and `⌊w·H/W⌋ = w*H/W` in natural-number division — the equivalence with the
real-valued floors is proved in `img2img_pixel_ceiling` below. -/
def img2imgDims (origW origH : Nat) (width height : Option Nat) : Nat × Nat :=
  let wh := img2imgEffDims origW origH width height
  if 1048576 < wh.1 * wh.2 then
    (Nat.sqrt (1048576 * origW / origH),
     Nat.sqrt (1048576 * origW / origH) * origH / origW)
  else wh

/-- The JSON payload `img2img` posts (image re-encoded to JPEG quality 95
upstream of this payload; the base64 string is the `image_b64` input). -/
structure Img2ImgPayload where
  prompt : String
  image : String
  strength : ℚ
  width : Nat
  height : Nat
  guidance_scale : ℚ
  num_inference_steps : Nat
  scheduler : String
  preserve_color_profile : Bool
deriving DecidableEq

/-- `FluxAPI.img2img` up to its submission `requests.post`: endpoint
lookup (raising `Unknown model` on a miss) and payload construction with
the rescaled dimensions. -/
def img2img (model : String) (origW origH : Nat) (width height : Option Nat)
    (prompt image_b64 : String) (strength : ℚ) : PreflightStep Img2ImgPayload :=
  match modelEndpoint model with
  | none => PreflightStep.error ("Unknown model: " ++ model)
  | some endpoint =>
    PreflightStep.submit endpoint
      { prompt := prompt
        image := image_b64
        strength := strength
        width := (img2imgDims origW origH width height).1
        height := (img2imgDims origW origH width height).2
        guidance_scale := 7.5
        num_inference_steps := 50
        scheduler := "euler_ancestral"
        preserve_color_profile := true }

/-- A Python JSON value as it appears in the payload dicts of
`control_generate`: a string, a number, or `None`. -/
inductive PyVal where
  | vstr (s : String)
  | vnum (q : ℚ)
  | vnone
deriving DecidableEq

/-- A Python dict with string keys, as an association list with at most
one entry per key (insertion order preserved, as in CPython). -/
abbrev Dict := List (String × PyVal)

/-- Dict lookup (`d[k]` / `k in d`): the entry for `k`, if any. -/
def dictGet (d : Dict) (k : String) : Option PyVal :=
  match d with
  | [] => none
  | (k', v) :: rest => if k' = k then some v else dictGet rest k

/-- `d.get(k, dflt)`. -/
def dictGetD (d : Dict) (k : String) (dflt : PyVal) : PyVal :=
  (dictGet d k).getD dflt

/-- Assignment of one key (`d[k] = v`): replaces the existing entry for
`k` or appends a new one. -/
def dictSet (d : Dict) (k : String) (v : PyVal) : Dict :=
  match d with
  | [] => [(k, v)]
  | (k', v') :: rest => if k' = k then (k', v) :: rest else (k', v') :: dictSet rest k v

/-- `d.update(kvs)`: assigns every entry of `kvs` into `d`, in order. -/
def dictUpdate (d : Dict) (kvs : Dict) : Dict :=
  kvs.foldl (fun acc kv => dictSet acc kv.1 kv.2) d

lemma dictGet_dictSet_self (d : Dict) (k : String) (v : PyVal) :
    dictGet (dictSet d k v) k = some v := by
  induction d with
  | nil => simp [dictSet, dictGet]
  | cons kv rest ih =>
    by_cases h : kv.1 = k
    · simp [dictSet, dictGet, h]
    · simp [dictSet, dictGet, h, ih]

lemma dictGet_dictSet_ne (d : Dict) (k' k : String) (v : PyVal) (h : k' ≠ k) :
    dictGet (dictSet d k' v) k = dictGet d k := by
  induction d with
  | nil => simp [dictSet, dictGet, h]
  | cons kv rest ih =>
    by_cases hk : kv.1 = k'
    · simp [dictSet, dictGet, hk, h]
    · by_cases hkk : kv.1 = k
      · simp [dictSet, dictGet, hk, hkk, Ne.symm h]
      · simp [dictSet, dictGet, hk, hkk, ih]

/-- Updating with entries that never touch `k` leaves `k`'s value alone. -/
lemma dictGet_dictUpdate_not_mem (kvs : Dict) :
    ∀ (d : Dict) (k : String), (∀ kv ∈ kvs, kv.1 ≠ k) →
      dictGet (dictUpdate d kvs) k = dictGet d k := by
  induction kvs with
  | nil => intro d k _; rfl
  | cons kv rest ih =>
    intro d k h
    have hstep : dictUpdate d (kv :: rest) = dictUpdate (dictSet d kv.1 kv.2) rest := rfl
    rw [hstep, ih (dictSet d kv.1 kv.2) k (fun kv' hkv' => h kv' (List.mem_cons_of_mem kv hkv'))]
    exact dictGet_dictSet_ne d kv.1 k kv.2 (h kv (List.mem_cons_self kv rest))

/-- Updating with a duplicate-free dict containing `k ↦ v` makes `k`'s
value `v`. -/
lemma dictGet_dictUpdate_nodup (kvs : Dict) :
    ∀ (d : Dict) (k : String) (v : PyVal), (kvs.map Prod.fst).Nodup →
      dictGet kvs k = some v →
      dictGet (dictUpdate d kvs) k = some v := by
  induction kvs with
  | nil => intro d k v _ h; simp [dictGet] at h
  | cons kv rest ih =>
    intro d k v hnd hget
    obtain ⟨k1, v1⟩ := kv
    have hstep : dictUpdate d ((k1, v1) :: rest) = dictUpdate (dictSet d k1 v1) rest := rfl
    rw [List.map_cons, List.nodup_cons] at hnd
    by_cases hk : k1 = k
    · have hv : v1 = v := by
        simp only [dictGet] at hget
        rw [if_pos hk] at hget
        exact Option.some_inj.mp hget
      subst hk
      subst hv
      rw [hstep, dictGet_dictUpdate_not_mem rest (dictSet d k1 v1) k1 ?_,
        dictGet_dictSet_self]
      intro kv' hkv' hkv'k
      have hmem : kv'.1 ∈ List.map Prod.fst rest := List.mem_map_of_mem Prod.fst hkv'
      rw [hkv'k] at hmem
      exact hnd.1 hmem
    · have hget' : dictGet rest k = some v := by
        simp only [dictGet] at hget
        rwa [if_neg hk] at hget
      exact hstep ▸ ih (dictSet d k1 v1) k v hnd.2 hget'

/-- The endpoints table of `FluxAPI.control_generate`. -/
def controlEndpoint : String → Option String
  | "canny" => some "/v1/flux-pro-1.0-canny"
  | "depth" => some "/v1/flux-pro-1.0-depth"
  | "pose" => some "/v1/flux-pro-1.0-pose"
  | _ => none

/-- The `default_params` table of `FluxAPI.control_generate`
(`default_params.get(control_type, {})`). -/
def default_params : String → Dict
  | "canny" => [("guidance", PyVal.vnum 30)]
  | "depth" => [("guidance", PyVal.vnum 15)]
  | "pose" => [("guidance", PyVal.vnum 25)]
  | _ => []

/-- The payload of `control_generate`: the base dict, then
`payload.update(default_params.get(control_type, {}))`, then
`payload.update(kwargs)` (`control_image` is the base64-encoded control
image string). -/
def controlPayload (prompt control_image control_type : String)
    (kwargs : Dict) : Dict :=
  dictUpdate
    (dictUpdate
      [("prompt", PyVal.vstr prompt),
       ("control_image", PyVal.vstr control_image),
       ("steps", dictGetD kwargs "steps" (PyVal.vnum 50)),
       ("output_format", dictGetD kwargs "output_format" (PyVal.vstr "jpeg")),
       ("safety_tolerance", dictGetD kwargs "safety_tolerance" (PyVal.vnum 2))]
      (default_params control_type))
    kwargs

/-- `FluxAPI.control_generate` up to its submission `requests.post`:
membership test in the endpoints table (raising `Unsupported control type`
on a miss) and payload construction. -/
def control_generate (control_type prompt control_image : String)
    (kwargs : Dict) : PreflightStep Dict :=
  match controlEndpoint control_type with
  | none => PreflightStep.error ("Unsupported control type: " ++ control_type)
  | some endpoint =>
    PreflightStep.submit endpoint (controlPayload prompt control_image control_type kwargs)

/-- C6: a TextToImage or ImageToImage request with an unrecognized model
name, and a ControlGenerate request with an unrecognized control type,
fail with the unsupported-mode `ValueError` as their first action — the
`PreflightStep.error` result means no submission was posted, hence no
poll and no download either. -/
theorem unsupported_mode_preflight (model ct : String)
    (hm : modelEndpoint model = none) (hc : controlEndpoint ct = none)
    (prompt img : String) (width height : Option Int) (aspect : Option String)
    (origW origH : Nat) (w2 h2 : Option Nat) (strength : ℚ) (kwargs : Dict) :
    generate_image prompt model width height aspect =
      PreflightStep.error ("Unknown model: " ++ model)
    ∧ img2img model origW origH w2 h2 prompt img strength =
      PreflightStep.error ("Unknown model: " ++ model)
    ∧ control_generate ct prompt img kwargs =
      PreflightStep.error ("Unsupported control type: " ++ ct) := by
  refine ⟨?_, ?_, ?_⟩
  · rw [generate_image, hm]
  · rw [img2img, hm]
  · rw [control_generate, hc]

/-- Witness for C6: the unknown model `flux.2` and unknown control type
`edge` each fail pre-flight. -/
theorem unsupported_mode_preflight_witness :
    generate_image "p" "flux.2" none none none =
      PreflightStep.error ("Unknown model: " ++ "flux.2")
    ∧ img2img "flux.2" 640 480 none none "p" "b64" (3/4) =
      PreflightStep.error ("Unknown model: " ++ "flux.2")
    ∧ control_generate "edge" "p" "b64" [] =
      PreflightStep.error ("Unsupported control type: " ++ "edge") :=
  unsupported_mode_preflight "flux.2" "edge" rfl rfl "p" "b64" none none none
    640 480 none none (3/4) []

lemma dictGet_none_keys (d : Dict) (k : String) (h : dictGet d k = none) :
    ∀ kv ∈ d, kv.1 ≠ k := by
  induction d with
  | nil => intro kv hkv; cases hkv
  | cons kv0 rest ih =>
    intro kv hkv
    obtain ⟨k0, v0⟩ := kv0
    simp only [dictGet] at h
    by_cases hk0 : k0 = k
    · rw [if_pos hk0] at h; cases h
    · rw [if_neg hk0] at h
      rcases List.mem_cons.mp hkv with hkv | hkv
      · rw [hkv]; exact hk0
      · exact ih h kv hkv

/-- C7: for every ControlGenerate request, the `guidance` entry of the
outbound payload is the per-control-type default (`canny=30`, `depth=15`,
`pose=25`) when the caller's kwargs carry no `guidance` key, and is the
caller's explicit value whenever the kwargs carry one — the explicit value
always overrides the type-specific default because `payload.update(kwargs)`
runs after the defaults are applied. -/
theorem control_guidance_defaults (ct : String) (g : ℚ)
    (hct : (ct = "canny" ∧ g = 30) ∨ (ct = "depth" ∧ g = 15) ∨
      (ct = "pose" ∧ g = 25))
    (prompt img : String) (kwargs : Dict) :
    (dictGet kwargs "guidance" = none →
      dictGet (controlPayload prompt img ct kwargs) "guidance" =
        some (PyVal.vnum g))
    ∧ (∀ v, (kwargs.map Prod.fst).Nodup →
      dictGet kwargs "guidance" = some v →
      dictGet (controlPayload prompt img ct kwargs) "guidance" = some v) := by
  have hdp : default_params ct = [("guidance", PyVal.vnum g)] := by
    rcases hct with ⟨h1, h2⟩ | ⟨h1, h2⟩ | ⟨h1, h2⟩ <;> subst h1 <;> subst h2 <;> rfl
  constructor
  · intro habs
    rw [controlPayload, hdp,
      dictGet_dictUpdate_not_mem kwargs _ "guidance" (dictGet_none_keys kwargs "guidance" habs)]
    have hsingle : ∀ d : Dict, dictUpdate d [("guidance", PyVal.vnum g)] =
        dictSet d "guidance" (PyVal.vnum g) := fun d => rfl
    rw [hsingle, dictGet_dictSet_self]
  · intro v hnd hv
    rw [controlPayload]
    exact dictGet_dictUpdate_nodup kwargs _ "guidance" v hnd hv

/-- Witness for C7: with no kwargs the `canny` payload carries guidance 30;
an explicit `guidance=7` overrides it. -/
theorem control_guidance_defaults_witness :
    dictGet (controlPayload "p" "b64" "canny" []) "guidance" =
      some (PyVal.vnum 30)
    ∧ dictGet (controlPayload "p" "b64" "canny" [("guidance", PyVal.vnum 7)])
        "guidance" = some (PyVal.vnum 7) :=
  ⟨(control_guidance_defaults "canny" 30 (Or.inl ⟨rfl, rfl⟩) "p" "b64" []).1 rfl,
   (control_guidance_defaults "canny" 30 (Or.inl ⟨rfl, rfl⟩) "p" "b64"
      [("guidance", PyVal.vnum 7)]).2 (PyVal.vnum 7) (by simp) rfl⟩

/-- Original-format detection of `handle_image_url`:
`content_type.split('/')[-1].lower()`, normalized to `jpeg` unless in the
`['png', 'gif']` allow-list. -/
def save_format_of (content_type : String) : String :=
  let original_format := ((content_type.splitOn "/").getLastD "").toLower
  if original_format = "png" ∨ original_format = "gif" then original_format
  else "jpeg"

/-- Result of `handle_image_url`: bytes written to a file, an inline
`{format, data}` answer (the base64 encoding of the bytes is kept
abstract), or the URL passed through. -/
inductive HandleOutput (β : Type) where
  | saved (path : String) (format : String) (bytes : β)
  | inline (format : String) (bytes : β)
  | urlOut (u : String)
deriving DecidableEq

/-- The post-download logic of `handle_image_url` over downloaded bytes of
abstract type `β`: format detection, the best-effort WebP conversion
(`pil_to_webp` is the PIL decode → convert → re-encode step, `none` when it
raises), and output-mode selection.  `splitext_base` is
`os.path.splitext(...)[0]` for the `.webp` extension adjustment. -/
def handle_image_url {β : Type} (image_url : String) (image_bytes : β)
    (content_type : String) (output_path : Option String)
    (fetch_base64 : Bool) (to_webp : Bool)
    (pil_to_webp : β → Option β) (splitext_base : String → String) :
    HandleOutput β :=
  let save_format := save_format_of content_type
  let conv :=
    if to_webp && (output_path.isSome || fetch_base64) then
      match pil_to_webp image_bytes with
      | some converted => ("webp", converted)
      | none => (save_format, image_bytes)
    else (save_format, image_bytes)
  match output_path with
  | some p =>
    HandleOutput.saved
      (if conv.1 = "webp" then splitext_base p ++ ".webp" else p)
      conv.1 conv.2
  | none =>
    if fetch_base64 then HandleOutput.inline conv.1 conv.2
    else HandleOutput.urlOut image_url

/-- The format/bytes pair an output actually carries (`none` for the plain
URL pass-through, which materializes no bytes). -/
def emittedArtifact {β : Type} : HandleOutput β → Option (String × β)
  | HandleOutput.saved _ f b => some (f, b)
  | HandleOutput.inline f b => some (f, b)
  | HandleOutput.urlOut _ => none

/-- C8: in a bytes-materializing mode (file save or inline base64), if WebP
conversion was requested but the PIL decode/re-encode step fails, the
pipeline emits the original downloaded bytes with the originally detected
format, instead of failing. -/
theorem webp_fallback {β : Type} (image_url : String) (image_bytes : β)
    (content_type : String) (output_path : Option String) (fetch_base64 : Bool)
    (pil_to_webp : β → Option β) (splitext_base : String → String)
    (hmode : output_path.isSome = true ∨ fetch_base64 = true)
    (hfail : pil_to_webp image_bytes = none) :
    emittedArtifact (handle_image_url image_url image_bytes content_type
        output_path fetch_base64 true pil_to_webp splitext_base) =
      some (save_format_of content_type, image_bytes) := by
  have hcond : (true && (output_path.isSome || fetch_base64)) = true := by
    rcases hmode with h | h <;> simp [h]
  rcases houtp : output_path with _ | p
  · rcases hmode with h | h
    · rw [houtp] at h; cases h
    · rw [houtp] at hcond
      simp [handle_image_url, hcond, hfail, h, emittedArtifact]
  · rw [houtp] at hcond
    simp only [handle_image_url, hcond, if_true, hfail]
    have hnw : save_format_of content_type ≠ "webp" := by
      simp only [save_format_of]
      split
      · rename_i h
        rcases h with h | h <;> rw [h] <;> decide
      · decide
    simp [emittedArtifact, hnw]

/-- Witness for C8: a corrupt PNG payload with conversion requested in save
mode falls back to the detected `png` format and the original bytes. -/
theorem webp_fallback_witness :
    (some "out.png" : Option String).isSome = true
    ∧ emittedArtifact (handle_image_url "http://img" ([137, 80, 78, 71] : List Nat)
        "image/png" (some "out.png") false true (fun _ => none) (fun s => s)) =
      some (save_format_of "image/png", ([137, 80, 78, 71] : List Nat)) :=
  ⟨rfl,
   webp_fallback "http://img" ([137, 80, 78, 71] : List Nat) "image/png"
     (some "out.png") false (fun _ => none) (fun s => s) (Or.inl rfl) rfl⟩

/-- A PIL image as `create_mask` produces one: the mode string, the pixel
dimensions, and the value of each pixel (pixels live at integer
coordinates `0 ≤ x < width`, `0 ≤ y < height`). -/
structure PILImage where
  mode : String
  size : Nat × Nat
  pixel : Nat → Nat → Nat

/-- `FluxAPI.create_mask`: `Image.new('L', size, 0)` followed by one
`ImageDraw` call.  Each draw call is modelled as its ideal filled region,
boundary included: the `polygon` on
`(0, y_start), (0, height), (width, height), (width, y_start)` (with
`y_start = height*0.65 - height*0.05`) fills `[0,width]×[y_start,height]`;
`rectangle([x1, y1, x2, y2])` fills `[x1,x2]×[y1,y2]`; and
`ellipse` on the square box of half-side `radius` around
`(width//2, height//2)` fills the disk of that radius.  The Python float
coordinates (`width * 0.25` etc.) are modelled as exact rationals; `//`
is natural division. -/
def create_mask (size : Nat × Nat) (shape : String) (position : String) :
    PILImage :=
  { mode := "L"
    size := size
    pixel := fun x y =>
      if position = "ground" then
        if (size.2 : ℚ) * 0.65 - (size.2 : ℚ) * 0.05 ≤ (y : ℚ) ∧
            (y : ℚ) ≤ (size.2 : ℚ) ∧ (x : ℚ) ≤ (size.1 : ℚ) then 255 else 0
      else
        if shape = "rectangle" then
          if (size.1 : ℚ) * 0.25 ≤ (x : ℚ) ∧ (x : ℚ) ≤ (size.1 : ℚ) * 0.75 ∧
              (size.2 : ℚ) * 0.25 ≤ (y : ℚ) ∧ (y : ℚ) ≤ (size.2 : ℚ) * 0.75
          then 255 else 0
        else
          if ((x : ℤ) - ((size.1 / 2 : Nat) : ℤ)) ^ 2 +
              ((y : ℤ) - ((size.2 / 2 : Nat) : ℤ)) ^ 2 ≤
              ((min size.1 size.2 / 4 : Nat) : ℤ) ^ 2
          then 255 else 0 }

lemma ite_255_iff (P : Prop) [Decidable P] :
    ((if P then (255 : Nat) else 0) = 255) ↔ P := by
  by_cases hp : P
  · simp [hp]
  · simp [hp]

/-- C5: for every size with `w, h ≥ 1`, the `rectangle`/`center` mask
fills exactly `[0.25w, 0.75w] × [0.25h, 0.75h]`; the `circle`/`center`
mask fills exactly the disk of radius `min w h // 4` centered at
`(w//2, h//2)`; and the `ground` mask — for either shape, which is
ignored — fills exactly the full-width region whose top boundary is at
`y = 0.60·h` and which extends to the bottom of the frame. -/
theorem mask_regions (w h : Nat) (_hw : 0 < w) (_hh : 0 < h) :
    (∀ x y : Nat,
      (create_mask (w, h) "rectangle" "center").pixel x y = 255 ↔
        ((w : ℚ) * 0.25 ≤ (x : ℚ) ∧ (x : ℚ) ≤ (w : ℚ) * 0.75 ∧
         (h : ℚ) * 0.25 ≤ (y : ℚ) ∧ (y : ℚ) ≤ (h : ℚ) * 0.75))
    ∧ (∀ x y : Nat,
      (create_mask (w, h) "circle" "center").pixel x y = 255 ↔
        ((x : ℤ) - ((w / 2 : Nat) : ℤ)) ^ 2 + ((y : ℤ) - ((h / 2 : Nat) : ℤ)) ^ 2 ≤
          ((min w h / 4 : Nat) : ℤ) ^ 2)
    ∧ (∀ (shape : String) (x y : Nat), x < w → y < h →
      ((create_mask (w, h) shape "ground").pixel x y = 255 ↔
        (0.60 : ℚ) * (h : ℚ) ≤ (y : ℚ))) := by
  refine ⟨?_, ?_, ?_⟩
  · intro x y
    have hpix : (create_mask (w, h) "rectangle" "center").pixel x y =
        if (w : ℚ) * 0.25 ≤ (x : ℚ) ∧ (x : ℚ) ≤ (w : ℚ) * 0.75 ∧
            (h : ℚ) * 0.25 ≤ (y : ℚ) ∧ (y : ℚ) ≤ (h : ℚ) * 0.75
        then 255 else 0 := rfl
    rw [hpix]
    exact ite_255_iff _
  · intro x y
    have hpix : (create_mask (w, h) "circle" "center").pixel x y =
        if ((x : ℤ) - ((w / 2 : Nat) : ℤ)) ^ 2 + ((y : ℤ) - ((h / 2 : Nat) : ℤ)) ^ 2 ≤
            ((min w h / 4 : Nat) : ℤ) ^ 2
        then 255 else 0 := rfl
    rw [hpix]
    exact ite_255_iff _
  · intro shape x y hx hy
    have hpix : (create_mask (w, h) shape "ground").pixel x y =
        if (h : ℚ) * 0.65 - (h : ℚ) * 0.05 ≤ (y : ℚ) ∧
            (y : ℚ) ≤ (h : ℚ) ∧ (x : ℚ) ≤ (w : ℚ)
        then 255 else 0 := rfl
    rw [hpix, ite_255_iff]
    constructor
    · intro hc
      calc (0.60 : ℚ) * (h : ℚ) = (h : ℚ) * 0.65 - (h : ℚ) * 0.05 := by ring
        _ ≤ (y : ℚ) := hc.1
    · intro hge
      refine ⟨?_, ?_, ?_⟩
      · calc (h : ℚ) * 0.65 - (h : ℚ) * 0.05 = (0.60 : ℚ) * (h : ℚ) := by ring
          _ ≤ (y : ℚ) := hge
      · exact_mod_cast Nat.le_of_lt hy
      · exact_mod_cast Nat.le_of_lt hx

/-- Witness for C5 on an 800×600 frame: pixel (400,300) is inside the
centered disk of radius 150, pixel (100,100) is outside the centered
rectangle, and on the ground mask (any shape) row 360 = 0.60·600 is
filled. -/
theorem mask_regions_witness :
    ((create_mask (800, 600) "circle" "center").pixel 400 300 = 255 ↔
      ((400 : ℤ) - ((800 / 2 : Nat) : ℤ)) ^ 2 + ((300 : ℤ) - ((600 / 2 : Nat) : ℤ)) ^ 2 ≤
        ((min 800 600 / 4 : Nat) : ℤ) ^ 2)
    ∧ ((create_mask (800, 600) "rectangle" "center").pixel 100 100 = 255 ↔
      ((800 : ℚ) * 0.25 ≤ (100 : ℚ) ∧ (100 : ℚ) ≤ (800 : ℚ) * 0.75 ∧
       (600 : ℚ) * 0.25 ≤ (100 : ℚ) ∧ (100 : ℚ) ≤ (600 : ℚ) * 0.75))
    ∧ ((create_mask (800, 600) "circle" "ground").pixel 10 360 = 255 ↔
      (0.60 : ℚ) * (600 : ℚ) ≤ (360 : ℚ)) :=
  ⟨(mask_regions 800 600 (by decide) (by decide)).2.1 400 300,
   (mask_regions 800 600 (by decide) (by decide)).1 100 100,
   (mask_regions 800 600 (by decide) (by decide)).2.2 "circle" 10 360
     (by decide) (by decide)⟩

/-- C9: for every size with `w, h ≥ 1` and every shape and position,
`create_mask` yields a single-channel (`'L'`) image of exactly the given
pixel dimensions whose every pixel value lies in `{0, 255}`.  The
embedding is a total function, so the mask construction never errors and
is deterministic and side-effect-free by construction. -/
theorem mask_invariants (size : Nat × Nat) (shape position : String)
    (_hw : 0 < size.1) (_hh : 0 < size.2) :
    (create_mask size shape position).mode = "L"
    ∧ (create_mask size shape position).size = size
    ∧ ∀ x y : Nat, (create_mask size shape position).pixel x y = 0 ∨
        (create_mask size shape position).pixel x y = 255 := by
  refine ⟨rfl, rfl, ?_⟩
  intro x y
  simp only [create_mask]
  split
  · split
    · exact Or.inr rfl
    · exact Or.inl rfl
  · split
    · split
      · exact Or.inr rfl
      · exact Or.inl rfl
    · split
      · exact Or.inr rfl
      · exact Or.inl rfl

/-- Witness for C9 on a 3×2 `circle`/`ground` mask. -/
theorem mask_invariants_witness :
    (create_mask (3, 2) "circle" "ground").mode = "L"
    ∧ (create_mask (3, 2) "circle" "ground").size = (3, 2)
    ∧ ((create_mask (3, 2) "circle" "ground").pixel 0 0 = 0 ∨
       (create_mask (3, 2) "circle" "ground").pixel 0 0 = 255) :=
  ⟨(mask_invariants (3, 2) "circle" "ground" (by decide) (by decide)).1,
   (mask_invariants (3, 2) "circle" "ground" (by decide) (by decide)).2.1,
   (mask_invariants (3, 2) "circle" "ground" (by decide) (by decide)).2.2 0 0⟩

/-- Floor of a quotient of naturals in ℝ is natural division. -/
lemma nat_floor_cast_div (a b : Nat) : ⌊((a : ℝ) / (b : ℝ))⌋₊ = a / b := by
  rw [Nat.floor_div_nat ((a : ℝ)) b, Nat.floor_natCast]

/-- Floor of the real square root is the natural square root of the
floor. -/
lemma nat_floor_sqrt (x : ℝ) (hx : 0 ≤ x) :
    ⌊Real.sqrt x⌋₊ = Nat.sqrt ⌊x⌋₊ := by
  rw [Nat.floor_eq_iff (Real.sqrt_nonneg x)]
  constructor
  · rw [Real.le_sqrt (Nat.cast_nonneg _) hx]
    calc ((Nat.sqrt ⌊x⌋₊ : ℝ)) ^ 2 = ((Nat.sqrt ⌊x⌋₊ ^ 2 : Nat) : ℝ) := by push_cast; ring
      _ ≤ (⌊x⌋₊ : ℝ) := by exact_mod_cast Nat.sqrt_le' ⌊x⌋₊
      _ ≤ x := Nat.floor_le hx
  · rw [Real.sqrt_lt' (by positivity)]
    have h1 : ⌊x⌋₊ + 1 ≤ (Nat.sqrt ⌊x⌋₊ + 1) ^ 2 :=
      Nat.succ_le_of_lt (Nat.lt_succ_sqrt' ⌊x⌋₊)
    calc x < (⌊x⌋₊ : ℝ) + 1 := Nat.lt_floor_add_one x
      _ = (((⌊x⌋₊ + 1 : Nat)) : ℝ) := by push_cast; ring
      _ ≤ (((Nat.sqrt ⌊x⌋₊ + 1) ^ 2 : Nat) : ℝ) := by exact_mod_cast h1
      _ = ((Nat.sqrt ⌊x⌋₊ : ℝ) + 1) ^ 2 := by push_cast; ring

/-- The rescaled dimensions respect the pixel ceiling, in ℕ. -/
lemma sqrt_rescale_ceiling (W H : Nat) (hW : 0 < W) :
    Nat.sqrt (1048576 * W / H) * (Nat.sqrt (1048576 * W / H) * H / W) ≤ 1048576 := by
  have h1 : Nat.sqrt (1048576 * W / H) * Nat.sqrt (1048576 * W / H) ≤
      1048576 * W / H := Nat.sqrt_le _
  have h2 : Nat.sqrt (1048576 * W / H) * Nat.sqrt (1048576 * W / H) * H ≤
      1048576 * W := by
    calc Nat.sqrt (1048576 * W / H) * Nat.sqrt (1048576 * W / H) * H
        ≤ (1048576 * W / H) * H := mul_le_mul_right' h1 H
      _ ≤ 1048576 * W := Nat.div_mul_le_self _ H
  have h3 : (Nat.sqrt (1048576 * W / H) * H / W) * W ≤
      Nat.sqrt (1048576 * W / H) * H := Nat.div_mul_le_self _ W
  have h4 : Nat.sqrt (1048576 * W / H) * (Nat.sqrt (1048576 * W / H) * H / W) * W ≤
      1048576 * W := by
    calc Nat.sqrt (1048576 * W / H) * (Nat.sqrt (1048576 * W / H) * H / W) * W
        = Nat.sqrt (1048576 * W / H) * ((Nat.sqrt (1048576 * W / H) * H / W) * W) := by
          ring
      _ ≤ Nat.sqrt (1048576 * W / H) * (Nat.sqrt (1048576 * W / H) * H) :=
          mul_le_mul_left' h3 _
      _ = Nat.sqrt (1048576 * W / H) * Nat.sqrt (1048576 * W / H) * H := by ring
      _ ≤ 1048576 * W := h2
  exact Nat.le_of_mul_le_mul_right h4 hW

/-- A natural division, seen in ℝ, is within 1 below the exact
quotient. -/
lemma cast_div_bounds (a b : Nat) (hb : 0 < b) :
    ((a / b : Nat) : ℝ) ≤ (a : ℝ) / (b : ℝ) ∧
    (a : ℝ) / (b : ℝ) - 1 < ((a / b : Nat) : ℝ) := by
  have hb' : (0 : ℝ) < (b : ℝ) := by exact_mod_cast hb
  refine ⟨Nat.cast_div_le, ?_⟩
  rw [sub_lt_iff_lt_add, div_lt_iff₀ hb']
  have hnat : a < (a / b + 1) * b :=
    (Nat.div_lt_iff_lt_mul hb).mp (Nat.lt_succ_self (a / b))
  calc (a : ℝ) < (((a / b + 1) * b : Nat) : ℝ) := by exact_mod_cast hnat
    _ = (((a / b : Nat) : ℝ) + 1) * (b : ℝ) := by push_cast; ring

/-- C4: for every ImageToImage request, writing `r = origH/origW` for the
source aspect ratio and `(w, h)` for the requested (or source-defaulted)
dimensions: if `w·h > 1048576` the payload dimensions are
`w' = ⌊√(1048576 / r)⌋` and `h' = ⌊w'·r⌋`, they satisfy
`w'·h' ≤ 1048576`, and they preserve the source ratio within ±1 pixel
(`w'·r − 1 < h' ≤ w'·r`); if `w·h ≤ 1048576` the dimensions are kept
unchanged. -/
theorem img2img_pixel_ceiling (origW origH : Nat) (hW : 0 < origW)
    (hH : 0 < origH) (width height : Option Nat) (w h w2 h2 : Nat)
    (he : img2imgEffDims origW origH width height = (w, h))
    (hd : img2imgDims origW origH width height = (w2, h2)) :
    (1048576 < w * h →
      (w2 = ⌊Real.sqrt ((1048576 : ℝ) / ((origH : ℝ) / (origW : ℝ)))⌋₊
       ∧ h2 = ⌊(w2 : ℝ) * ((origH : ℝ) / (origW : ℝ))⌋₊
       ∧ w2 * h2 ≤ 1048576
       ∧ (h2 : ℝ) ≤ (w2 : ℝ) * ((origH : ℝ) / (origW : ℝ))
       ∧ (w2 : ℝ) * ((origH : ℝ) / (origW : ℝ)) - 1 < (h2 : ℝ)))
    ∧ (w * h ≤ 1048576 → (w2, h2) = (w, h)) := by
  have hW' : (origW : ℝ) ≠ 0 := by positivity
  have hH' : (origH : ℝ) ≠ 0 := by positivity
  have hunfold : img2imgDims origW origH width height =
      if 1048576 < (img2imgEffDims origW origH width height).1 *
          (img2imgEffDims origW origH width height).2 then
        (Nat.sqrt (1048576 * origW / origH),
         Nat.sqrt (1048576 * origW / origH) * origH / origW)
      else img2imgEffDims origW origH width height := rfl
  rw [hunfold, he] at hd
  constructor
  · intro hover
    rw [if_pos hover] at hd
    have hw2 : w2 = Nat.sqrt (1048576 * origW / origH) := (Prod.mk.injEq _ _ _ _ ▸ hd).1.symm
    have hh2 : h2 = Nat.sqrt (1048576 * origW / origH) * origH / origW :=
      (Prod.mk.injEq _ _ _ _ ▸ hd).2.symm
    have hx : (1048576 : ℝ) / ((origH : ℝ) / (origW : ℝ)) =
        ((1048576 * origW : Nat) : ℝ) / (origH : ℝ) := by
      push_cast
      field_simp
    have ha : w2 = ⌊Real.sqrt ((1048576 : ℝ) / ((origH : ℝ) / (origW : ℝ)))⌋₊ := by
      rw [hx, nat_floor_sqrt _ (by positivity), nat_floor_cast_div, hw2]
    have hmul : (w2 : ℝ) * ((origH : ℝ) / (origW : ℝ)) =
        ((w2 * origH : Nat) : ℝ) / (origW : ℝ) := by
      push_cast
      ring
    have hb : h2 = ⌊(w2 : ℝ) * ((origH : ℝ) / (origW : ℝ))⌋₊ := by
      rw [hmul, nat_floor_cast_div, hh2, hw2]
    have hc : w2 * h2 ≤ 1048576 := by
      rw [hw2, hh2]
      exact sqrt_rescale_ceiling origW origH hW
    have hdb := cast_div_bounds (w2 * origH) origW hW
    have hh2' : h2 = w2 * origH / origW := by rw [hw2]; exact hh2
    refine ⟨ha, hb, hc, ?_, ?_⟩
    · rw [hmul, hh2']
      exact hdb.1
    · rw [hmul, hh2']
      exact hdb.2
  · intro hle
    rw [if_neg (show ¬ 1048576 < (w, h).1 * (w, h).2 from not_lt.mpr hle)] at hd
    exact hd.symm

/-- Witness for C4: a 1600×1200 source with no requested dimensions
(1,920,000 pixels) is over the ceiling; the rescaled payload dimensions
respect the ceiling and stay within one pixel of the 1200/1600 ratio. -/
theorem img2img_pixel_ceiling_witness :
    1048576 < 1600 * 1200
    ∧ (img2imgDims 1600 1200 none none).1 * (img2imgDims 1600 1200 none none).2 ≤
        1048576
    ∧ ((img2imgDims 1600 1200 none none).2 : ℝ) ≤
        ((img2imgDims 1600 1200 none none).1 : ℝ) * ((1200 : ℝ) / (1600 : ℝ))
    ∧ ((img2imgDims 1600 1200 none none).1 : ℝ) * ((1200 : ℝ) / (1600 : ℝ)) - 1 <
        ((img2imgDims 1600 1200 none none).2 : ℝ) :=
  have h := (img2img_pixel_ceiling 1600 1200 (by decide) (by decide) none none
    1600 1200 (img2imgDims 1600 1200 none none).1
    (img2imgDims 1600 1200 none none).2 rfl (Prod.mk.eta).symm).1 (by decide)
  ⟨by decide, h.2.2.1, h.2.2.2.1, h.2.2.2.2⟩
